import Mathlib

/-!
Shallow embedding of `jupyter_console/ptshell.py` (prompt_toolkit front-end
for the IPython/Jupyter console) and proofs about its behaviour.

The file embeds:
  * `IPythonPTCompleter.get_completions` (the completion adapter);
  * the `ControlJ` (Enter) key-binding handler registered in
    `PTInteractiveShell.init_prompt_toolkit_cli`;
  * the history-preload loop of `init_prompt_toolkit_cli`;
  * `PTInteractiveShell.pre_prompt`;
  * `PTInteractiveShell.interact` together with `ask_exit`.

External collaborators (the completeness checker `input_splitter.check_complete`,
the completion engine `Completer.complete`, the kernel readiness wait and the
results of `pt_cli.run`) are passed in as parameters, so all theorems quantify
over their behaviour.  Document/buffer geometry (`on_last_line`,
`cursor_position_row`, `line_count`, `empty_line_count_at_the_end`,
`insert_text`) follows the semantics of the prompt_toolkit library the code
calls into; `Buffer.newline` is modelled, per the spec, as a plain newline
insertion at the cursor.
-/

namespace PTShell

/-- Python whitespace test for ASCII strings, as used by `str.strip` and
`str.rstrip` with no arguments. -/
def pyIsSpace (c : Char) : Bool :=
  c == ' ' || c == '\t' || c == '\n' || c == '\r' || c == '\x0b' || c == '\x0c'

/-- Python `s.rstrip()`: drop trailing whitespace. -/
def pyRStrip (s : String) : String :=
  String.mk ((s.data.reverse.dropWhile pyIsSpace).reverse)

/-- Python `not s.strip()`: the string is empty or whitespace-only. -/
def pyIsBlank (s : String) : Bool :=
  s.data.all pyIsSpace

/-- Python `s.split(chr(10))`: split a character list at newline characters.
Always returns at least one (possibly empty) line. -/
def splitLines : List Char → List (List Char)
  | [] => [[]]
  | c :: cs =>
    if c = '\n' then [] :: splitLines cs
    else
      match splitLines cs with
      | l :: ls => (c :: l) :: ls
      | [] => [[c]]

/-! ## Completion adapter: `IPythonPTCompleter.get_completions`

```python
def get_completions(self, document, complete_event):
    if not document.current_line.strip():
        return
    used, matches = self.ipy_completer.complete(
                        line_buffer=document.current_line,
                        cursor_pos=document.cursor_position_col)
    start_pos = -len(used)
    for m in matches:
        yield Completion(m, start_position=start_pos)
```
-/

/-- One UI completion: candidate text plus the (non-positive) start offset
relative to the cursor. -/
structure UICompletion where
  text : String
  start_position : Int
deriving DecidableEq, Repr

/-- Result of running the adapter: the completions yielded, in order, and how
many times the underlying IPython completion engine was invoked. -/
structure CompletionsResult where
  completions : List UICompletion
  engineCalls : Nat
deriving DecidableEq, Repr

/-- `IPythonPTCompleter.get_completions`.  The engine
(`self.ipy_completer.complete`) takes the current line and the cursor column
and returns the consumed prefix together with the candidate list. -/
def get_completions (engine : String → Nat → String × List String)
    (currentLine : String) (cursorCol : Nat) : CompletionsResult :=
  if pyIsBlank currentLine then
    ⟨[], 0⟩
  else
    let r := engine currentLine cursorCol
    ⟨r.2.map (fun m => ⟨m, -(r.1.length : Int)⟩), 1⟩

/-! ## History preload (in `init_prompt_toolkit_cli`)

```python
history = InMemoryHistory()
last_cell = u""
for _, _, cell in self.history_manager.get_tail(self.history_load_length,
                                                include_latest=True):
    # Ignore blank lines and consecutive duplicates
    cell = cell.rstrip()
    if cell and (cell != last_cell):
        history.append(cell)
```

Note that `last_cell` is initialised to the empty string and never reassigned
inside the loop; the fold below keeps it in the accumulator to make that
visible. -/

/-- The history-preload loop: fold the raw tail cells into the in-memory
history.  The accumulator carries `(history, last_cell)`. -/
def historyPreload (cells : List String) : List String :=
  (cells.foldl
    (fun acc cell =>
      let c := pyRStrip cell
      if c ≠ "" ∧ c ≠ acc.2 then (acc.1 ++ [c], acc.2) else acc)
    (([] : List String), "")).1

/-! ## The `ControlJ` (Enter) key binding -/

/-- Verdict of `input_splitter.check_complete`. -/
inductive Status where
  | complete
  | incomplete
  | invalid
deriving DecidableEq, Repr

/-- The focused prompt_toolkit buffer as the handler sees it: its text, the
cursor position (a character offset into the text) and whether its accept
action is returnable. -/
structure Buffer where
  text : String
  cursor : Nat
  isReturnable : Bool
deriving DecidableEq, Repr

/-- `document.cursor_position_row`: number of newlines before the cursor. -/
def cursorRow (b : Buffer) : Nat :=
  ((b.text.data.take b.cursor).filter (fun c => c = '\n')).length

/-- `document.line_count`: number of lines of the text. -/
def lineCount (b : Buffer) : Nat :=
  (splitLines b.text.data).length

/-- `document.on_last_line`: the cursor sits on the last line. -/
def onLastLine (b : Buffer) : Bool :=
  cursorRow b == lineCount b - 1

/-- `document.empty_line_count_at_the_end()`: number of trailing lines that
are empty or whitespace-only. -/
def emptyLineCountAtEnd (b : Buffer) : Nat :=
  (((splitLines b.text.data).reverse).takeWhile (fun l => l.all pyIsSpace)).length

/-- `buffer.insert_text(s)`: insert `s` at the cursor and move the cursor past
it. -/
def insertText (b : Buffer) (s : String) : Buffer :=
  { b with
    text := String.mk (b.text.data.take b.cursor ++ s.data ++ b.text.data.drop b.cursor)
    cursor := b.cursor + s.length }

/-- Outcome of one run of the `ControlJ` handler: the buffer afterwards,
`accepted = some t` when `accept_action.validate_and_handle` finalized the
input unit with full text `t` (exiting the nested read), and the number of
calls made to `input_splitter.check_complete`. -/
structure HandlerResult where
  buffer : Buffer
  accepted : Option String
  checkCalls : Nat
deriving DecidableEq, Repr

/-- The `ControlJ` (Enter) handler of `init_prompt_toolkit_cli`:

```python
def _(event):
    b = event.current_buffer
    d = b.document
    if not (d.on_last_line or d.cursor_position_row >= d.line_count
                                   - d.empty_line_count_at_the_end()):
        b.newline()
        return
    status, indent = self.input_splitter.check_complete(d.text)
    if (status != 'incomplete') and b.accept_action.is_returnable:
        b.accept_action.validate_and_handle(event.cli, b)
    else:
        b.insert_text(chr(10) + (' ' * (indent or 0)))
```

`check` stands for `input_splitter.check_complete`. -/
def controlJ (check : String → Status × Option Nat) (b : Buffer) : HandlerResult :=
  if ¬(onLastLine b = true ∨ cursorRow b ≥ lineCount b - emptyLineCountAtEnd b) then
    ⟨insertText b "\n", none, 0⟩
  else
    match check b.text with
    | (status, indent) =>
      if status ≠ Status.incomplete ∧ b.isReturnable = true then
        ⟨b, some b.text, 1⟩
      else
        ⟨insertText b (String.mk ('\n' :: List.replicate (indent.getD 0) ' ')), none, 1⟩

/-! ## `pre_prompt`

```python
rl_next_input = None

def pre_prompt(self):
    if self.rl_next_input:
        self.pt_cli.application.buffer.text = cast_unicode_py2(self.rl_next_input)
        self.rl_next_input = None
```
-/

/-- `pre_prompt`, as a function from `(rl_next_input, buffer text)` to the
updated `(rl_next_input, buffer text)`.  `none` models Python `None`; the
truthiness test `if self.rl_next_input` is false for `None` and for the empty
string. -/
def pre_prompt (rl : Option String) (buf : String) : Option String × String :=
  match rl with
  | some s => if s ≠ "" then (none, s) else (rl, buf)
  | none => (rl, buf)

/-! ## The interactive loop: `interact` -/

/-- One outcome of a blocking `pt_cli.run` call, from the loop's perspective:
either it returned a document (`none` models a falsy result, `some t` a
document with text `t`), or it raised `EOFError`, in which case
`confirmExit` is the user's answer to the exit confirmation. -/
inductive ReadEvent where
  | doc (d : Option String)
  | eof (confirmExit : Bool)
deriving DecidableEq, Repr

/-- Observable effects of a run of `interact`: messages printed to the error
stream, `run_cell` dispatches as `(text, store_history)` pairs in order,
`ask_yes_no` questions as `(prompt, default)` pairs, and the number of blank
separator lines printed. -/
structure Effects where
  errs : List String := []
  dispatches : List (String × Bool) := []
  asks : List (String × String) := []
  blanks : Nat := 0
deriving DecidableEq, Repr

/-- Concatenation of effect traces. -/
def Effects.app (a b : Effects) : Effects :=
  ⟨a.errs ++ b.errs, a.dispatches ++ b.dispatches, a.asks ++ b.asks, a.blanks + b.blanks⟩

/-- The exit-confirmation prompt passed to `ask_yes_no`. -/
def exitPrompt : String := "Do you really want to exit ([y]/n)?"

/-- The `while self.keep_running` loop body of `interact`, driven by the list
of read outcomes.  `ask_exit` sets `keep_running` to `False`, which the loop
condition observes at the top of the next iteration.

```python
while self.keep_running:
    print(chr(10), end='')
    try:
        document = self.pt_cli.run(pre_run=self.pre_prompt)
    except EOFError:
        if self.ask_yes_no('Do you really want to exit ([y]/n)?','y','n'):
            self.ask_exit()
    else:
        if document:
            self.run_cell(document.text, store_history=True)
```
-/
def interactLoop : Bool → List ReadEvent → Effects
  | false, _ => {}
  | true, [] => {}
  | true, e :: rest =>
    let pre : Effects := { blanks := 1 }
    match e with
    | .eof ans =>
      let ask : Effects := { asks := [(exitPrompt, "y")] }
      if ans then Effects.app pre (Effects.app ask (interactLoop false rest))
      else Effects.app pre (Effects.app ask (interactLoop true rest))
    | .doc none => Effects.app pre (interactLoop true rest)
    | .doc (some t) =>
      Effects.app pre (Effects.app { dispatches := [(t, true)] } (interactLoop true rest))

/-- `interact`: wait for the kernel; on timeout print a diagnostic to stderr
and return, otherwise run the read-dispatch loop (with `keep_running`
initially `True`).

```python
def interact(self, display_banner=None):
    if not self.wait_for_kernel(self.kernel_timeout):
        print("Kernel did not respond", file=sys.stderr)
        return
    while self.keep_running: ...
```

`kernelReady` is the result of `wait_for_kernel`. -/
def interact (kernelReady : Bool) (events : List ReadEvent) : Effects :=
  if kernelReady then interactLoop true events
  else { errs := ["Kernel did not respond\n"] }

/-! ## Theorems -/

/-- C1: evaluating the history-preload loop of `init_prompt_toolkit_cli` on
the raw tail sequence `["a", "a", "", "b", "b"]` yields
`["a", "a", "b", "b"]`, not the `["a", "b"]` the spec (and the loop comment
in the code, "Ignore blank lines and consecutive duplicates") promise:
`last_cell` is never reassigned inside the loop, so consecutive duplicates
survive and the no-consecutive-duplicates invariant fails. -/
theorem history_preload_keeps_consecutive_duplicates :
    historyPreload ["a", "a", "", "b", "b"] = ["a", "a", "b", "b"] ∧
    historyPreload ["a", "a", "", "b", "b"] ≠ ["a", "b"] := by
  decide

/-- C2, counterexample: with the completeness check returning `complete` but
the buffer not returnable, an Enter press on the last line does not finalize
the input unit (no accept happens, so no dispatch and the nested read stays
open), refuting the claim that a `complete` verdict alone finalizes. -/
theorem complete_not_returnable_not_finalized :
    onLastLine ⟨"x", 1, false⟩ = true ∧
    (controlJ (fun _ => (Status.complete, none)) ⟨"x", 1, false⟩).accepted = none ∧
    (controlJ (fun _ => (Status.complete, none)) ⟨"x", 1, false⟩).checkCalls = 1 := by
  decide

/-- C2, amended: for every Enter press with the cursor on the last line, when
the buffer is returnable and the completeness verdict is not `incomplete`
(in particular when it is `complete`), the input unit is finalized with the
full buffer text, the completeness check ran exactly once, the nested read
exits, and the interactive loop then makes exactly one dispatch call with
that text. -/
theorem enter_returnable_not_incomplete_finalizes
    (check : String → Status × Option Nat) (b : Buffer)
    (hlast : onLastLine b = true) (hret : b.isReturnable = true)
    (hst : (check b.text).1 ≠ Status.incomplete) :
    (controlJ check b).accepted = some b.text ∧
    (controlJ check b).buffer = b ∧
    (controlJ check b).checkCalls = 1 ∧
    (interact true [ReadEvent.doc (some b.text)]).dispatches = [(b.text, true)] := by
  rcases hc : check b.text with ⟨status, indent⟩
  rw [hc] at hst
  simp only [Prod.fst] at hst
  refine ⟨?_, ?_, ?_, ?_⟩ <;>
    simp [controlJ, hlast, hc, hst, hret, interact, interactLoop, Effects.app]

/-- C2, witness for the amended theorem at a concrete input. -/
theorem enter_returnable_not_incomplete_finalizes_witness :
    (controlJ (fun _ => (Status.complete, none)) ⟨"x", 1, true⟩).accepted = some "x" :=
  (enter_returnable_not_incomplete_finalizes (fun _ => (Status.complete, none))
    ⟨"x", 1, true⟩ (by decide) rfl (by decide)).1

/-- C3, counterexample: with text `"a\n\n"` and the cursor at offset 2 (the
middle, blank line), the cursor is not on the last line, yet the handler does
run the completeness check (once, not zero times) and, on an `incomplete`
verdict with indent 4, inserts a newline plus four spaces rather than the
plain newline the claim requires: the newline branch additionally requires
the cursor to sit above the trailing blank lines. -/
theorem enter_above_trailing_blanks_still_checks :
    onLastLine ⟨"a\n\n", 2, true⟩ = false ∧
    (controlJ (fun _ => (Status.incomplete, some 4)) ⟨"a\n\n", 2, true⟩).checkCalls = 1 ∧
    (controlJ (fun _ => (Status.incomplete, some 4)) ⟨"a\n\n", 2, true⟩).buffer ≠
      insertText ⟨"a\n\n", 2, true⟩ "\n" := by
  decide

/-- C3, amended: for every Enter press where the cursor is not on the last
line and sits strictly above the trailing run of blank lines
(`cursor_position_row < line_count - empty_line_count_at_the_end()`), a plain
newline is inserted at the cursor, the completeness check is not invoked, no
finalization/dispatch occurs, and the nested read continues. -/
theorem enter_not_last_line_inserts_newline
    (check : String → Status × Option Nat) (b : Buffer)
    (hlast : onLastLine b = false)
    (hrow : cursorRow b < lineCount b - emptyLineCountAtEnd b) :
    controlJ check b = ⟨insertText b "\n", none, 0⟩ := by
  have hcond : ¬(onLastLine b = true ∨ cursorRow b ≥ lineCount b - emptyLineCountAtEnd b) := by
    simp [hlast]
    omega
  rw [controlJ, if_pos hcond]

/-- C3, witness for the amended theorem at a concrete input. -/
theorem enter_not_last_line_inserts_newline_witness :
    controlJ (fun _ => (Status.complete, none)) ⟨"a\nb", 0, true⟩ =
      ⟨insertText ⟨"a\nb", 0, true⟩ "\n", none, 0⟩ :=
  enter_not_last_line_inserts_newline (fun _ => (Status.complete, none))
    ⟨"a\nb", 0, true⟩ (by decide) (by decide)

/-- C4: for every Enter press on the last line where the completeness check
returns `incomplete` with suggested indent 4 and the buffer is not
returnable, the buffer grows by exactly one newline followed by four spaces
(inserted at the cursor, so the text is five characters longer), no
finalization/dispatch occurs, and the nested read continues. -/
theorem enter_incomplete_indents
    (check : String → Status × Option Nat) (b : Buffer)
    (hlast : onLastLine b = true)
    (hchk : check b.text = (Status.incomplete, some 4))
    (_hret : b.isReturnable = false) :
    (controlJ check b).accepted = none ∧
    (controlJ check b).buffer.text.data =
      b.text.data.take b.cursor ++ ('\n' :: List.replicate 4 ' ') ++ b.text.data.drop b.cursor ∧
    (controlJ check b).buffer.text.length = b.text.length + 5 := by
  have hres : controlJ check b =
      ⟨insertText b (String.mk ('\n' :: List.replicate 4 ' ')), none, 1⟩ := by
    simp [controlJ, hlast, hchk]
  refine ⟨by rw [hres], by rw [hres]; rfl, ?_⟩
  rw [hres]
  show (b.text.data.take b.cursor ++ ('\n' :: List.replicate 4 ' ') ++ b.text.data.drop b.cursor).length
    = b.text.data.length + 5
  simp
  omega

/-- C4, witness at a concrete input. -/
theorem enter_incomplete_indents_witness :
    (controlJ (fun _ => (Status.incomplete, some 4)) ⟨"if x:", 5, false⟩).accepted = none ∧
    (controlJ (fun _ => (Status.incomplete, some 4)) ⟨"if x:", 5, false⟩).buffer.text.length =
      ("if x:" : String).length + 5 :=
  ⟨(enter_incomplete_indents (fun _ => (Status.incomplete, some 4)) ⟨"if x:", 5, false⟩
      (by decide) rfl rfl).1,
   (enter_incomplete_indents (fun _ => (Status.incomplete, some 4)) ⟨"if x:", 5, false⟩
      (by decide) rfl rfl).2.2⟩

/-- C5: when the kernel-readiness wait times out (`wait_for_kernel` returns
false), `interact` prints the readiness-failure diagnostic to the error
stream and returns at once: whatever read outcomes would have followed, no
dispatch is made, no exit confirmation is asked and no prompt separator is
printed. -/
theorem kernel_timeout_no_dispatch (events : List ReadEvent) :
    (interact false events).dispatches = [] ∧
    (interact false events).errs = ["Kernel did not respond\n"] ∧
    (interact false events).asks = [] ∧
    (interact false events).blanks = 0 := by
  simp [interact]

/-- C6: on end-of-input the loop asks the exit confirmation whose default
answer is yes (`ask_yes_no(prompt, default, interrupt)` is called with
default `"y"`); if the user confirms, `ask_exit` clears `keep_running` and
the loop stops — no further reads, asks or dispatches happen whatever events
would have followed; if the user declines, the loop goes on with the
remaining reads; in either case nothing is dispatched for the read that
raised end-of-input. -/
theorem eof_asks_exit_confirmation (rest : List ReadEvent) :
    (interact true (ReadEvent.eof true :: rest)).asks = [(exitPrompt, "y")] ∧
    (interact true (ReadEvent.eof true :: rest)).dispatches = [] ∧
    (interact true (ReadEvent.eof true :: rest)).blanks = 1 ∧
    (interact true (ReadEvent.eof false :: rest)).asks =
      (exitPrompt, "y") :: (interactLoop true rest).asks ∧
    (interact true (ReadEvent.eof false :: rest)).dispatches =
      (interactLoop true rest).dispatches := by
  refine ⟨?_, ?_, ?_, ?_, ?_⟩ <;> simp [interact, interactLoop, Effects.app]

/-- C7: when the current line is not blank and the completion engine returns
a consumed prefix of length 3 with candidates `["foo", "foobar"]`, the
adapter emits exactly those two candidates, in the order the engine returned
them, each anchored 3 characters before the cursor, and queried the engine
exactly once. -/
theorem completions_anchored_in_order
    (engine : String → Nat → String × List String) (line : String) (col : Nat)
    (u : String)
    (hblank : pyIsBlank line = false)
    (hengine : engine line col = (u, ["foo", "foobar"]))
    (hu : u.length = 3) :
    (get_completions engine line col).completions =
      [⟨"foo", -3⟩, ⟨"foobar", -3⟩] ∧
    (get_completions engine line col).engineCalls = 1 := by
  simp [get_completions, hblank, hengine, hu]

/-- C7, witness at a concrete input. -/
theorem completions_anchored_in_order_witness :
    (get_completions (fun _ _ => ("abc", ["foo", "foobar"])) "abc" 3).completions =
      [⟨"foo", -3⟩, ⟨"foobar", -3⟩] :=
  (completions_anchored_in_order (fun _ _ => ("abc", ["foo", "foobar"])) "abc" 3 "abc"
    (by decide) rfl (by decide)).1

/-- C8: for every current line that is empty or whitespace-only, the adapter
yields zero candidates and never invokes the underlying completion engine. -/
theorem blank_line_no_completions
    (engine : String → Nat → String × List String) (line : String) (col : Nat)
    (hblank : pyIsBlank line = true) :
    get_completions engine line col = ⟨[], 0⟩ := by
  simp [get_completions, hblank]

/-- C8, witness at a concrete input. -/
theorem blank_line_no_completions_witness :
    get_completions (fun _ _ => ("x", ["y"])) "   " 2 = ⟨[], 0⟩ :=
  blank_line_no_completions (fun _ _ => ("x", ["y"])) "   " 2 (by decide)

/-- C9: every document returned by the blocking read — its text may be empty —
is dispatched exactly once, with `store_history = true`: the loop iteration
for that read contributes exactly the dispatch `(t, true)` to the trace, and
a run whose only read returns `t` dispatches `[(t, true)]`. -/
theorem returned_document_dispatched_once (t : String) (rest : List ReadEvent) :
    (interact true (ReadEvent.doc (some t) :: rest)).dispatches =
      (t, true) :: (interactLoop true rest).dispatches ∧
    (interact true [ReadEvent.doc (some t)]).dispatches = [(t, true)] ∧
    (interact true [ReadEvent.doc (some "")]).dispatches = [("", true)] := by
  refine ⟨?_, ?_, ?_⟩ <;> simp [interact, interactLoop, Effects.app]

/-- C10: before a blocking read, `pre_prompt` sets the buffer text to the
pending next-input string and clears the slot exactly when the slot holds a
non-empty string; when the slot is `None` or holds the empty string, both the
slot and the buffer text are left unchanged. -/
theorem pre_prompt_consumes_next_input (rl : Option String) (buf : String) :
    (∀ s, rl = some s → s ≠ "" → pre_prompt rl buf = (none, s)) ∧
    ((rl = none ∨ rl = some "") → pre_prompt rl buf = (rl, buf)) := by
  constructor
  · intro s hs hne
    subst hs
    simp [pre_prompt, hne]
  · rintro (h | h) <;> subst h <;> simp [pre_prompt]

/-- C10, witness at concrete inputs: a non-empty slot is consumed into the
buffer, an absent and an empty slot leave both components unchanged. -/
theorem pre_prompt_consumes_next_input_witness :
    pre_prompt (some "x") "old" = (none, "x") ∧
    pre_prompt none "old" = (none, "old") ∧
    pre_prompt (some "") "old" = (some "", "old") :=
  ⟨(pre_prompt_consumes_next_input (some "x") "old").1 "x" rfl (by decide),
   (pre_prompt_consumes_next_input none "old").2 (Or.inl rfl),
   (pre_prompt_consumes_next_input (some "") "old").2 (Or.inr rfl)⟩

end PTShell
